import Mathlib

/-!
Verification development for the oaiaux Go library (OpenAI helper utilities).

The Go source (oaiaux.go) is shallowly embedded below: pure functions become
Lean functions, Go `int` becomes `Int`, Go `float64` values that are only
compared against the exact constants 0 and 1 (the temperature / top-p
defaulting logic) become `Rat` (those comparisons are exact in IEEE-754, so
the embedding is faithful), byte strings become `List Nat` where byte lengths
matter, and embedding vectors become `List Real` (exact-arithmetic reading of
the floating-point vector math). Fallible operations return `Except`/`Option`.
-/

namespace Oaiaux

/-! ## Options (Option struct, OptionList.GetString) -/

/--
Closed model of the dynamic values storable in an option. The Go field is
`Value interface{}`; per the conversion contract of the external
reddo.ToString collaborator, scalar values (strings, integers, booleans)
convert to their canonical textual representation and non-scalar values fail.
-/
inductive OptValue where
  | str (s : String)
  | int (n : Int)
  | bool (b : Bool)
  | nonScalar
deriving DecidableEq, Repr

/--
Failure conditions of an option lookup: the sentinel ErrOptionNotFound
returned when no entry matches the key, and a conversion failure returned by
the external reddo.ToString collaborator (a distinct error value: the reddo
package cannot return the oaiaux sentinel ErrOptionNotFound).
-/
inductive GetErr where
  | notFound
  | convFailed
deriving DecidableEq, Repr

/-- Embeds the Go struct Option { Key string; Value interface{} }. -/
structure Opt where
  Key : String
  Value : OptValue
deriving DecidableEq, Repr

/--
Embeds Option.AsString, which delegates to the external reddo.ToString:
scalars convert, non-scalars fail with a conversion error.
-/
def Opt.AsString (o : Opt) : Except GetErr String :=
  match o.Value with
  | .str s => .ok s
  | .int n => .ok (toString n)
  | .bool b => .ok (toString b)
  | .nonScalar => .error .convFailed

/-- Embeds the Go type OptionList ([]Option). -/
abbrev OptionList := List Opt

/--
Embeds OptionList.GetString: scan the list in order; on the first entry whose
key equals the requested key, return its AsString conversion; if no entry
matches, fail with ErrOptionNotFound.
-/
def GetString (ol : OptionList) (key : String) : Except GetErr String :=
  match ol with
  | [] => .error .notFound
  | o :: rest => if o.Key = key then o.AsString else GetString rest key

/-! ## Request structures and defaulting (preparePrompt, prepareChatPrompt) -/

/-- Embeds the Go struct ChatMessage. -/
structure ChatMessage where
  Role : String
  Content : String
  Name : String
deriving DecidableEq, Repr

/-- Embeds the Go struct PromptInput (requests of the Completions API). -/
structure PromptInput where
  Model : String := ""
  Prompt : String := ""
  MaxTokens : Int := 0
  Temperature : Rat := 0
  TopP : Rat := 0
  LogitBias : List (String × Int) := []
  User : String := ""
  N : Int := 0
  Stream : Bool := false
  LogProbs : Int := 0
  Suffix : String := ""
  Echo : Bool := false
  Stop : List String := []
  PresencePenalty : Rat := 0
  FrequencyPenalty : Rat := 0
  BestOf : Int := 0
deriving DecidableEq, Repr

/-- Embeds the Go struct ChatPromptInput (requests of the ChatCompletions API). -/
structure ChatPromptInput where
  Model : String := ""
  Messages : List ChatMessage := []
  Temperature : Rat := 0
  TopP : Rat := 0
  N : Int := 0
  Stream : Bool := false
  Stop : List String := []
  MaxTokens : Int := 0
  PresencePenalty : Rat := 0
  FrequencyPenalty : Rat := 0
  LogitBias : List (String × Int) := []
  User : String := ""
deriving DecidableEq, Repr

/--
Embeds BaseClient.preparePrompt: in-place defaulting of a Completions
request, transcribed statement by statement from the Go source.
-/
def preparePrompt (p0 : PromptInput) : PromptInput :=
  let p1 := if p0.MaxTokens ≤ 0 then { p0 with MaxTokens := 100 } else p0
  let p2 := if p1.N < 1 then { p1 with N := 1 } else p1
  let p3 := if p2.BestOf < p2.N then { p2 with BestOf := p2.N } else p2
  let p4 := if p3.Temperature = 0 ∧ p3.TopP = 0 then
      { p3 with Temperature := 1, TopP := 1 } else p3
  let p5 := if p4.Temperature < 0 ∨ p4.Temperature > 1 then
      { p4 with Temperature := 1 } else p4
  let p6 := if p5.TopP < 0 ∨ p5.TopP > 1 then { p5 with TopP := 1 } else p5
  let p7 := if 0 < p6.Temperature ∧ p6.Temperature < 1 then
      { p6 with TopP := 1 } else p6
  let p8 := if 0 < p7.TopP ∧ p7.TopP < 1 then { p7 with Temperature := 1 } else p7
  p8

/--
Embeds BaseClient.prepareChatPrompt: in-place defaulting of a
ChatCompletions request, transcribed statement by statement from the Go
source (identical to preparePrompt except that ChatPromptInput has no
BestOf field).
-/
def prepareChatPrompt (p0 : ChatPromptInput) : ChatPromptInput :=
  let p1 := if p0.MaxTokens ≤ 0 then { p0 with MaxTokens := 100 } else p0
  let p2 := if p1.N < 1 then { p1 with N := 1 } else p1
  let p4 := if p2.Temperature = 0 ∧ p2.TopP = 0 then
      { p2 with Temperature := 1, TopP := 1 } else p2
  let p5 := if p4.Temperature < 0 ∨ p4.Temperature > 1 then
      { p4 with Temperature := 1 } else p4
  let p6 := if p5.TopP < 0 ∨ p5.TopP > 1 then { p5 with TopP := 1 } else p5
  let p7 := if 0 < p6.Temperature ∧ p6.Temperature < 1 then
      { p6 with TopP := 1 } else p6
  let p8 := if 0 < p7.TopP ∧ p7.TopP < 1 then { p7 with Temperature := 1 } else p7
  p8

/--
Spec-side description of the temperature / top-p joint defaulting, written
from the words of the specification: if both are exactly 0 set both to 1.0;
then set each to 1.0 independently if it lies outside [0,1]; then if
temperature is strictly between 0 and 1 force top-p to 1.0; then if top-p is
strictly between 0 and 1 force temperature to 1.0.
-/
def tempTopPSpec (t p : Rat) : Rat × Rat :=
  let s1 : Rat × Rat := if t = 0 ∧ p = 0 then (1, 1) else (t, p)
  let s2 : Rat × Rat := if s1.1 < 0 ∨ s1.1 > 1 then (1, s1.2) else s1
  let s3 : Rat × Rat := if s2.2 < 0 ∨ s2.2 > 1 then (s2.1, 1) else s2
  let s4 : Rat × Rat := if 0 < s3.1 ∧ s3.1 < 1 then (s3.1, 1) else s3
  let s5 : Rat × Rat := if 0 < s4.2 ∧ s4.2 < 1 then (1, s4.2) else s4
  s5

/-! ## Token estimator (EstimateTokens) -/

/--
Word bytes per the Go regular expressions of EstimateTokens: the RE2 classes
used there match exactly the ASCII digits, letters and underscore; every
byte of a multi-byte UTF-8 rune is a non-word byte, so the maximal runs of
word bytes coincide with the rune-level runs the Go regexp computes.
-/
def isWordByte (b : Nat) : Bool :=
  (48 ≤ b && b ≤ 57) || (65 ≤ b && b ≤ 90) || (97 ≤ b && b ≤ 122) || b == 95

/--
Decomposition of a byte string into its maximal runs of same-class bytes
(word or non-word); this is the combined outcome of the two regexp splits
performed by EstimateTokens, with empty pieces dropped as the Go code does.
-/
def chunks : List Nat → List (List Nat)
  | [] => []
  | b :: t =>
    match chunks t with
    | [] => [[b]]
    | [] :: rest => [b] :: rest
    | (c :: cs) :: rest =>
      if isWordByte b = isWordByte c then (b :: c :: cs) :: rest
      else [b] :: (c :: cs) :: rest

/-- Tests whether a run consists of word bytes (true on the runs the first regexp split of EstimateTokens keeps). -/
def isWordChunk : List Nat → Bool
  | [] => false
  | b :: _ => isWordByte b

/-- Models the Go expression int(math.Ceil(float64(n) / 4.0)); exact because the float arithmetic is exact at these magnitudes. -/
def ceilF4 (n : Nat) : Nat := ⌈(n : Rat) / 4⌉₊

/-- Accumulates the per-word token estimate of EstimateTokens: the sum over non-empty word runs of the ceiling of a quarter of the byte length. -/
def numWords (input : List Nat) : Nat :=
  ((chunks input).filter isWordChunk).foldr (fun w acc => ceilF4 w.length + acc) 0

/-- Accumulates the non-word byte total of EstimateTokens: the sum of the byte lengths of the non-empty non-word runs. -/
def numNonWords (input : List Nat) : Nat :=
  ((chunks input).filter (fun c => !isWordChunk c)).foldr (fun nw acc => nw.length + acc) 0

/--
Embeds EstimateTokens: the heuristic token estimate over the bytes of the
input string, with truncating (natural-number) division at each division in
the final formula, as in the Go source.
-/
def EstimateTokens (input : List Nat) : Nat :=
  ((numWords input * 4 / 3 + numNonWords input) + input.length / 4) / 2

/-! ## Token counter (CountTokens) -/

/-- External BPE codec collaborator: encodes a string into a sequence of token ids. -/
structure Codec where
  encode : String → List Nat

/--
External codec-registry collaborator (the tiktoken tokenizer package):
ForModel resolves a codec registered for a model name, get resolves a codec
registered for an encoding name; either returns a not-found failure.
-/
structure TokenizerRegistry where
  ForModel : String → Option Codec
  get : String → Option Codec

/-- Name of the fixed default encoding used by CountTokens (tokenizer.P50kBase). -/
def P50kBase : String := "p50k_base"

/--
Codec resolution performed by CountTokens, transcribed from the Go source:
try the codec registered for the value of the option keyed "model" (only
when that lookup succeeds with a non-empty string), else the codec
registered for the value of the option keyed "encoding" (same proviso),
else the default P50k-base encoding.
-/
def resolveCodec (reg : TokenizerRegistry) (optList : OptionList) : Option Codec :=
  let enc1 : Option Codec :=
    match GetString optList "model" with
    | .ok model => if model ≠ "" then reg.ForModel model else none
    | .error _ => none
  match enc1 with
  | some enc => some enc
  | none =>
    let enc2 : Option Codec :=
      match GetString optList "encoding" with
      | .ok encoding => if encoding ≠ "" then reg.get encoding else none
      | .error _ => none
    match enc2 with
    | some enc => some enc
    | none => reg.get P50kBase

/--
Embeds CountTokens: resolve a codec per resolveCodec; if none could be
resolved return -1, otherwise return the length of the codec Encode output
for the input.
-/
def CountTokens (reg : TokenizerRegistry) (input : String) (opts : OptionList) : Int :=
  match resolveCodec reg opts with
  | none => -1
  | some enc => ((enc.encode input).length : Int)

/-! ## Platform-flavor client (PlatformOpenAIClient) -/

/-- Option key of the Platform API key (OptOpenAIApiKey). -/
def OptOpenAIApiKey : String := "openai-api-key"

/-- Option key of the Platform organization id (OptOpenAIOrganization). -/
def OptOpenAIOrganization : String := "openai-organization"

/-- Option key of the custom Platform base URL (OptOpenAIBaseUrl). -/
def OptOpenAIBaseUrl : String := "openai-base-url"

/-- Validated configuration of a Platform-flavor client, as filled in by Init. -/
structure PlatformOpenAIClient where
  apiKey : String
  organization : String
  baseUrl : String
deriving DecidableEq, Repr

/--
Configuration error produced when Init cannot obtain a required option; the
Go error message is "cannot parse setting <KEY> ..." and thus names the
offending option key, recorded here.
-/
structure InitError where
  optionKey : String
deriving DecidableEq, Repr

/-- Models the Go idiom `s, _ := opts.GetString(key)`: the error is discarded and the string result is the zero value "" when the lookup failed. -/
def getStringOrEmpty (ol : OptionList) (key : String) : String :=
  match GetString ol key with
  | .ok s => s
  | .error _ => ""

/-- Embeds strings.TrimSuffix: removes one occurrence of the given suffix from the end of the string, if present (stated over the character lists of the strings, which agrees with the byte-level Go behavior on valid UTF-8 input). -/
def TrimSuffix (s suf : String) : String :=
  if suf.data.isSuffixOf s.data then
    String.mk (s.data.take (s.data.length - suf.data.length))
  else s

/--
Embeds PlatformOpenAIClient.Init: the API key option must resolve to a
non-empty string, else Init fails with a configuration error naming the
API-key option; the organization and base-URL lookups ignore errors; the
base URL has one trailing slash stripped and falls back to the standard
endpoint when the stripped value is empty.
-/
def PlatformOpenAIClient.Init (opts : OptionList) : Except InitError PlatformOpenAIClient :=
  match GetString opts OptOpenAIApiKey with
  | .error _ => .error ⟨OptOpenAIApiKey⟩
  | .ok apiKey =>
    if apiKey = "" then .error ⟨OptOpenAIApiKey⟩
    else
      let organization := getStringOrEmpty opts OptOpenAIOrganization
      let baseUrl0 := TrimSuffix (getStringOrEmpty opts OptOpenAIBaseUrl) "/"
      let baseUrl := if baseUrl0 = "" then "https://api.openai.com/v1" else baseUrl0
      .ok ⟨apiKey, organization, baseUrl⟩

/-- Embeds PlatformOpenAIClient.buildUrlCompletions (the prompt argument of the Go method is unused). -/
def PlatformOpenAIClient.buildUrlCompletions (c : PlatformOpenAIClient) : String :=
  c.baseUrl ++ "/completions"

/-- Embeds PlatformOpenAIClient.buildUrlChatCompletions (the prompt argument of the Go method is unused). -/
def PlatformOpenAIClient.buildUrlChatCompletions (c : PlatformOpenAIClient) : String :=
  c.baseUrl ++ "/chat/completions"

/-- Embeds PlatformOpenAIClient.buildUrlEmbeddings (the input argument of the Go method is unused). -/
def PlatformOpenAIClient.buildUrlEmbeddings (c : PlatformOpenAIClient) : String :=
  c.baseUrl ++ "/embeddings"

/-! ## Vector math -/

/-- Embeds the Go type Vector ([]float64), read over exact reals. -/
abbrev Vector := List ℝ

/-- Embeds Vector.Length: the square root of the running sum of squares of the elements. -/
noncomputable def Vector.Length (v : Vector) : ℝ :=
  Real.sqrt (v.foldl (fun result e => result + e * e) 0)

/--
Accumulator form of the Vector.Dot loop: pairs the remaining elements of the
receiver with the remaining elements of the other vector in order; when the
receiver still has elements but the other vector is exhausted, the Go code
indexes out of range and panics, modelled by none.
-/
noncomputable def dotLoop : Vector → Vector → ℝ → Option ℝ
  | [], _, result => some result
  | _ :: _, [], _ => none
  | e :: v, o :: os, result => dotLoop v os (result + e * o)

/-- Embeds Vector.Dot: the running sum of elementwise products over the indices of the receiver, starting from 0. -/
noncomputable def Vector.Dot (v other : Vector) : Option ℝ :=
  dotLoop v other 0

/-- Embeds Vector.Cosine: the dot product divided by the product of the two lengths (an out-of-range panic inside Dot propagates). -/
noncomputable def Vector.Cosine (v other : Vector) : Option ℝ :=
  (v.Dot other).map (fun dot => dot / (v.Length * other.Length))

/-! ## Response envelopes (buildCompletionsOutput, buildEmbeddingsOutput) -/

/-- Embeds the Go struct BaseResponse: the transport/deserialization error and the HTTP status code of a response envelope. -/
structure BaseResponse where
  Error : Option String := none
  StatusCode : Int := 0
deriving DecidableEq, Repr

/-- Body fields of CompletionsOutput written by JSON unmarshalling (the usage block of the Go struct). -/
structure CompletionsUsage where
  CompletionTokens : Int := 0
  PromptTokens : Int := 0
  TotalTokens : Int := 0
deriving DecidableEq, Repr

/-- Body fields of CompletionsOutput written by JSON unmarshalling (one choice; the JSON logprobs map is modelled as an association list). -/
structure CompletionsChoice where
  Text : String := ""
  Index : Int := 0
  FinishReason : String := ""
  LogProbs : List (String × String) := []
deriving DecidableEq, Repr

/-- Body fields of CompletionsOutput written by JSON unmarshalling. -/
structure CompletionsBody where
  Id : String := ""
  Object : String := ""
  Created : Int := 0
  Model : String := ""
  Usage : Option CompletionsUsage := none
  Choices : List CompletionsChoice := []
deriving DecidableEq, Repr

/-- Embeds the Go struct CompletionsOutput: BaseResponse plus the body fields. -/
structure CompletionsOutput extends BaseResponse, CompletionsBody
deriving DecidableEq, Repr

/-- Zero value of the completions body fields, as left by the Go struct literal before any unmarshalling. -/
def zeroCompletionsBody : CompletionsBody := {}

/-- Usage block of EmbeddingsOutput. -/
structure EmbeddingsUsage where
  PromptTokens : Int := 0
  TotalTokens : Int := 0
deriving DecidableEq, Repr

/-- One data entry of EmbeddingsOutput. -/
structure EmbeddingsData where
  Index : Int := 0
  Object : String := ""
  Embedding : Vector := []

/-- Body fields of EmbeddingsOutput written by JSON unmarshalling. -/
structure EmbeddingsBody where
  Object : String := ""
  Model : String := ""
  Data : List EmbeddingsData := []
  Usage : Option EmbeddingsUsage := none

/-- Embeds the Go struct EmbeddingsOutput: BaseResponse plus the body fields. -/
structure EmbeddingsOutput extends BaseResponse, EmbeddingsBody

/-- Zero value of the embeddings body fields, as left by the Go struct literal before any unmarshalling. -/
def zeroEmbeddingsBody : EmbeddingsBody := {}

/--
External transport collaborator (gjrc.GjrcResponse): error is the
transport-level error, statusCode the HTTP status code; Unmarshal, when
invoked, writes unmarshalBody into the body fields of the target (possibly
partial data on failure) and returns unmarshalErr (none on success).
-/
structure GjrcResponse (β : Type) where
  error : Option String
  statusCode : Int
  unmarshalErr : Option String
  unmarshalBody : β

/--
Embeds BaseClient.buildCompletionsOutput: start from a zero-valued output
holding the transport error; call Unmarshal only when there is no transport
error, recording its error and body; always record the status code last.
-/
def buildCompletionsOutput (resp : GjrcResponse CompletionsBody) : CompletionsOutput :=
  let completions : CompletionsOutput :=
    { Error := resp.error, StatusCode := 0, toCompletionsBody := zeroCompletionsBody }
  let completions :=
    if completions.Error = none then
      { completions with Error := resp.unmarshalErr, toCompletionsBody := resp.unmarshalBody }
    else completions
  { completions with StatusCode := resp.statusCode }

/--
Embeds BaseClient.buildEmbeddingsOutput: start from a zero-valued output
holding the transport error; call Unmarshal only when there is no transport
error, recording its error and body; always record the status code last.
-/
def buildEmbeddingsOutput (resp : GjrcResponse EmbeddingsBody) : EmbeddingsOutput :=
  let embeddings : EmbeddingsOutput :=
    { Error := resp.error, StatusCode := 0, toEmbeddingsBody := zeroEmbeddingsBody }
  let embeddings :=
    if embeddings.Error = none then
      { embeddings with Error := resp.unmarshalErr, toEmbeddingsBody := resp.unmarshalBody }
    else embeddings
  { embeddings with StatusCode := resp.statusCode }

/-! ## Helper lemmas -/

/-- Lookup on a list whose keys all differ from the requested key yields the not-found error. -/
theorem getString_no_match (ol : OptionList) (key : String)
    (h : ∀ o ∈ ol, o.Key ≠ key) : GetString ol key = .error .notFound := by
  induction ol with
  | nil => rfl
  | cons o rest ih =>
    have hk : o.Key ≠ key := h o (List.mem_cons_self o rest)
    simp only [GetString, if_neg hk]
    exact ih fun q hq => h q (List.mem_cons_of_mem o hq)

/-- Lookup returns the conversion of the first entry whose key matches. -/
theorem getString_first_match (pre : OptionList) (o : Opt) (post : OptionList) (key : String)
    (hpre : ∀ q ∈ pre, q.Key ≠ key) (ho : o.Key = key) :
    GetString (pre ++ o :: post) key = o.AsString := by
  induction pre with
  | nil => simp [GetString, ho]
  | cons q rest ih =>
    have hq : q.Key ≠ key := hpre q (List.mem_cons_self q rest)
    simp only [List.cons_append, GetString, if_neg hq]
    exact ih fun r hr => hpre r (List.mem_cons_of_mem q hr)

/-- Ceiling of a quarter, computed with exact rational arithmetic, equals the rounded-up natural division. -/
theorem ceilF4_eq (n : Nat) : ceilF4 n = (n + 3) / 4 := by
  unfold ceilF4
  apply le_antisymm
  · rw [Nat.ceil_le, div_le_iff₀ (by norm_num : (0 : Rat) < 4)]
    exact_mod_cast (by omega : n ≤ (n + 3) / 4 * 4)
  · rcases Nat.eq_zero_or_pos ((n + 3) / 4) with h | h
    · simp [h]
    · obtain ⟨k, hk⟩ : ∃ k, (n + 3) / 4 = k + 1 := ⟨(n + 3) / 4 - 1, by omega⟩
      rw [hk, Nat.add_one_le_ceil_iff, lt_div_iff₀ (by norm_num : (0 : Rat) < 4)]
      exact_mod_cast (by omega : k * 4 < n)

/-- Both readings of the per-word accumulation agree once the ceiling step is rewritten. -/
theorem foldr_ceilF4_eq (l : List (List Nat)) :
    l.foldr (fun w acc => ceilF4 w.length + acc) 0 =
      l.foldr (fun w acc => (w.length + 3) / 4 + acc) 0 := by
  induction l with
  | nil => rfl
  | cons w t ih => simp [ceilF4_eq, ih]

/-- Folding the squares of a real list from any accumulator splits off the accumulator. -/
theorem foldl_sq_eq (v : List ℝ) (a : ℝ) :
    v.foldl (fun result e => result + e * e) a = a + (v.map fun e => e * e).sum := by
  induction v generalizing a with
  | nil => simp
  | cons e t ih => simp only [List.foldl_cons, List.map_cons, List.sum_cons, ih]; ring

/-- Sum of squares of a real list is nonnegative. -/
theorem sumSq_nonneg (v : List ℝ) : 0 ≤ (v.map fun e => e * e).sum := by
  apply List.sum_nonneg
  intro x hx
  obtain ⟨e, _, rfl⟩ := List.mem_map.1 hx
  exact mul_self_nonneg e

/-- Sum of squares of a real list with a nonzero member is positive. -/
theorem sumSq_pos (v : List ℝ) (e : ℝ) (he : e ∈ v) (hne : e ≠ 0) :
    0 < (v.map fun e => e * e).sum := by
  have hmem : e * e ∈ v.map fun e => e * e := List.mem_map_of_mem _ he
  have hle : e * e ≤ (v.map fun e => e * e).sum := by
    apply List.single_le_sum _ _ hmem
    intro x hx
    obtain ⟨f, _, rfl⟩ := List.mem_map.1 hx
    exact mul_self_nonneg f
  exact lt_of_lt_of_le (mul_self_pos.2 hne) hle

/-- The dot-product loop of a vector against itself accumulates the sum of squares. -/
theorem dotLoop_self (v : List ℝ) (a : ℝ) :
    dotLoop v v a = some (a + (v.map fun e => e * e).sum) := by
  induction v generalizing a with
  | nil => simp [dotLoop]
  | cons e t ih =>
    simp only [dotLoop, ih, List.map_cons, List.sum_cons]
    congr 1
    ring

/-- The dot-product loop against an all-zero right operand accumulates nothing. -/
theorem dotLoop_zero (v : List ℝ) (a : ℝ) :
    dotLoop v (List.replicate v.length 0) a = some a := by
  induction v generalizing a with
  | nil => simp [dotLoop]
  | cons e t ih => simpa [dotLoop, List.replicate] using ih a

/-- When the right operand is at least as long, the dot-product loop totals the zipped products. -/
theorem dotLoop_total (v : List ℝ) :
    ∀ (o : List ℝ) (a : ℝ), v.length ≤ o.length →
      dotLoop v o a = some (a + (List.zipWith (fun x y => x * y) v o).sum) := by
  induction v with
  | nil => intro o a _; simp [dotLoop]
  | cons e t ih =>
    intro o a h
    match o with
    | [] => simp at h
    | x :: xs =>
      simp only [List.length_cons, Nat.succ_le_succ_iff] at h
      simp only [dotLoop, ih xs _ h, List.zipWith_cons_cons, List.sum_cons]
      congr 1
      ring

/-- The dot-product loop fails exactly when the right operand is strictly shorter. -/
theorem dotLoop_none_iff (v : List ℝ) :
    ∀ (o : List ℝ) (a : ℝ), dotLoop v o a = none ↔ o.length < v.length := by
  induction v with
  | nil => intro o a; simp [dotLoop]
  | cons e t ih =>
    intro o a
    match o with
    | [] => simp [dotLoop]
    | x :: xs => simpa [dotLoop] using ih xs (a + e * x)

/-! ## Claim theorems -/

/--
C1: For every Prompt or Chat request, the temperature / top-p joint
defaulting of preparePrompt and prepareChatPrompt behaves exactly as
specified: if both are exactly 0 both become 1.0; then each is
independently set to 1.0 if outside [0,1]; then a temperature strictly
between 0 and 1 forces top-p to 1.0; then a top-p strictly between 0 and 1
forces temperature to 1.0; in particular (0.5, 0) yields (0.5, 1.0).
-/
theorem C1_temp_topP_defaulting :
    ∀ (p : PromptInput) (cp : ChatPromptInput),
      ((preparePrompt p).Temperature, (preparePrompt p).TopP) =
          tempTopPSpec p.Temperature p.TopP
      ∧ ((prepareChatPrompt cp).Temperature, (prepareChatPrompt cp).TopP) =
          tempTopPSpec cp.Temperature cp.TopP
      ∧ tempTopPSpec (1/2) 0 = (1/2, 1) := by
  intro p cp
  refine ⟨?_, ?_, by norm_num [tempTopPSpec]⟩
  · simp only [preparePrompt, tempTopPSpec, Prod.ext_iff,
      apply_ite PromptInput.Temperature, apply_ite PromptInput.TopP,
      apply_ite Prod.fst, apply_ite Prod.snd, ite_self]
    exact ⟨trivial, trivial⟩
  · simp only [prepareChatPrompt, tempTopPSpec, Prod.ext_iff,
      apply_ite ChatPromptInput.Temperature, apply_ite ChatPromptInput.TopP,
      apply_ite Prod.fst, apply_ite Prod.snd, ite_self]
    exact ⟨trivial, trivial⟩

/-- Witness for C1: the concrete input temperature 0.5 with top-p 0 comes out as temperature 0.5 and top-p 1.0. -/
theorem C1_witness :
    ((preparePrompt ({ Temperature := 1/2, TopP := 0 } : PromptInput)).Temperature,
      (preparePrompt ({ Temperature := 1/2, TopP := 0 } : PromptInput)).TopP) =
      ((1 : Rat)/2, (1 : Rat)) := by
  have h := C1_temp_topP_defaulting ({ Temperature := 1/2, TopP := 0 } : PromptInput)
    ({} : ChatPromptInput)
  rw [h.1]
  exact h.2.2

/--
C2: After defaulting, a Prompt or Chat request whose caller-supplied
MaxTokens was nonpositive carries MaxTokens 100; a caller-supplied sample
count below 1 becomes 1; and for Prompt requests BestOf is at least N.
-/
theorem C2_maxTokens_N_bestOf :
    ∀ (p : PromptInput) (cp : ChatPromptInput),
      (p.MaxTokens ≤ 0 → (preparePrompt p).MaxTokens = 100)
      ∧ (p.N < 1 → (preparePrompt p).N = 1)
      ∧ (preparePrompt p).N ≤ (preparePrompt p).BestOf
      ∧ (cp.MaxTokens ≤ 0 → (prepareChatPrompt cp).MaxTokens = 100)
      ∧ (cp.N < 1 → (prepareChatPrompt cp).N = 1) := by
  intro p cp
  simp only [preparePrompt, prepareChatPrompt,
    apply_ite PromptInput.MaxTokens, apply_ite PromptInput.N,
    apply_ite PromptInput.BestOf,
    apply_ite ChatPromptInput.MaxTokens, apply_ite ChatPromptInput.N, ite_self]
  split_ifs <;> omega

/-- Witness for C2: the all-zero request gets MaxTokens 100, N 1 and BestOf at least N. -/
theorem C2_witness :
    (preparePrompt ({} : PromptInput)).MaxTokens = 100
    ∧ (preparePrompt ({} : PromptInput)).N = 1
    ∧ (preparePrompt ({} : PromptInput)).N ≤ (preparePrompt ({} : PromptInput)).BestOf
    ∧ (prepareChatPrompt ({} : ChatPromptInput)).MaxTokens = 100
    ∧ (prepareChatPrompt ({} : ChatPromptInput)).N = 1 := by
  obtain ⟨h1, h2, h3, h4, h5⟩ := C2_maxTokens_N_bestOf {} {}
  exact ⟨h1 (by decide), h2 (by decide), h3, h4 (by decide), h5 (by decide)⟩

/--
C3 (counterexample): a lookup whose first matching entry holds a
non-convertible value fails, but with the conversion error, not with the
not-found error the claim asserts.
-/
theorem C3_counterexample :
    GetString [⟨"k", OptValue.nonScalar⟩] "k" ≠ Except.error GetErr.notFound
    ∧ GetString [⟨"k", OptValue.nonScalar⟩] "k" = Except.error GetErr.convFailed := by
  have hval : GetString [⟨"k", OptValue.nonScalar⟩] "k" =
      Except.error GetErr.convFailed := rfl
  refine ⟨?_, hval⟩
  rw [hval]
  intro h
  exact GetErr.noConfusion (Except.error.inj h)

/--
C3 (amended): GetString scans the list in order and returns the string
conversion of the first entry whose key matches (keys case-sensitive,
duplicates permitted, first match wins); it fails with the not-found error
when no entry keys the match, and fails with the conversion error (not the
not-found error) when the first matching entry holds a non-convertible
value.
-/
theorem C3_getString_first_match :
    ∀ (ol : OptionList) (key : String),
      ((∀ o ∈ ol, o.Key ≠ key) → GetString ol key = .error .notFound)
      ∧ (∀ pre o post, ol = pre ++ o :: post → (∀ q ∈ pre, q.Key ≠ key) →
          o.Key = key → GetString ol key = o.AsString)
      ∧ (∀ pre o post, ol = pre ++ o :: post → (∀ q ∈ pre, q.Key ≠ key) →
          o.Key = key → o.Value = .nonScalar →
          GetString ol key = .error .convFailed) := by
  intro ol key
  refine ⟨getString_no_match ol key, ?_, ?_⟩
  · intro pre o post hol hpre ho
    subst hol
    exact getString_first_match pre o post key hpre ho
  · intro pre o post hol hpre ho hv
    subst hol
    rw [getString_first_match pre o post key hpre ho, Opt.AsString, hv]

/-- Witness for C3: lookups on concrete lists hit the not-found error, the first-match conversion and the conversion failure as the theorem states. -/
theorem C3_witness :
    GetString [⟨"a", OptValue.str "x"⟩] "k" = .error .notFound
    ∧ GetString [⟨"a", OptValue.str "u"⟩, ⟨"k", OptValue.int 7⟩,
        ⟨"k", OptValue.str "z"⟩] "k" = .ok "7"
    ∧ GetString [⟨"k", OptValue.nonScalar⟩, ⟨"k", OptValue.str "z"⟩] "k" =
        .error .convFailed := by
  refine ⟨(C3_getString_first_match [⟨"a", OptValue.str "x"⟩] "k").1 (by decide), ?_, ?_⟩
  · have h := (C3_getString_first_match
      [⟨"a", OptValue.str "u"⟩, ⟨"k", OptValue.int 7⟩, ⟨"k", OptValue.str "z"⟩] "k").2.1
      [⟨"a", OptValue.str "u"⟩] ⟨"k", OptValue.int 7⟩ [⟨"k", OptValue.str "z"⟩]
      rfl (by decide) rfl
    simpa [Opt.AsString] using h
  · exact (C3_getString_first_match
      [⟨"k", OptValue.nonScalar⟩, ⟨"k", OptValue.str "z"⟩] "k").2.2
      [] ⟨"k", OptValue.nonScalar⟩ [⟨"k", OptValue.str "z"⟩] rfl (by decide) rfl rfl

/--
C4: EstimateTokens returns exactly ((numWords*4/3 + numNonWords) +
numBytes/4) / 2 with truncating natural division at each step, where
numWords sums the rounded-up quarter lengths of the maximal word-byte runs
(the floating-point ceiling being exactly the rounded-up natural division),
numNonWords sums the byte lengths of the maximal non-word runs, and
numBytes is the total byte length; on the empty input it returns 0 (and as
a Lean function it is pure and total by construction).
-/
theorem C4_estimateTokens_formula :
    (∀ input : List Nat,
      EstimateTokens input =
        ((((chunks input).filter isWordChunk).foldr
            (fun w acc => (w.length + 3) / 4 + acc) 0) * 4 / 3
          + numNonWords input + input.length / 4) / 2)
    ∧ EstimateTokens [] = 0 := by
  refine ⟨fun input => ?_, rfl⟩
  rw [EstimateTokens, numWords, foldr_ceilF4_eq]

/-- Witness for C4: the bytes of "hello world" (two 5-byte words, one space) estimate to 4 tokens, and the empty input estimates to 0. -/
theorem C4_witness :
    EstimateTokens [104, 101, 108, 108, 111, 32, 119, 111, 114, 108, 100] = 4
    ∧ EstimateTokens [] = 0 := by
  refine ⟨?_, C4_estimateTokens_formula.2⟩
  rw [C4_estimateTokens_formula.1 [104, 101, 108, 108, 111, 32, 119, 111, 114, 108, 100]]
  decide

/--
C5: CountTokens resolves a codec by trying the model option, then the
encoding option, then the fixed P50k-base default; it returns -1 exactly
when no codec could be resolved, and otherwise returns the nonnegative
length of the Encode output of the resolved codec; in particular a
successful model-option resolution takes priority.
-/
theorem C5_countTokens :
    ∀ (reg : TokenizerRegistry) (input : String) (opts : OptionList),
      (CountTokens reg input opts = -1 ↔ resolveCodec reg opts = none)
      ∧ (∀ enc, resolveCodec reg opts = some enc →
          CountTokens reg input opts = ((enc.encode input).length : Int)
          ∧ 0 ≤ CountTokens reg input opts)
      ∧ (∀ m enc, GetString opts "model" = .ok m → m ≠ "" →
          reg.ForModel m = some enc →
          CountTokens reg input opts = ((enc.encode input).length : Int)) := by
  intro reg input opts
  refine ⟨?_, ?_, ?_⟩
  · unfold CountTokens
    cases h : resolveCodec reg opts with
    | none => simp
    | some enc => simp
  · intro enc h
    unfold CountTokens
    rw [h]
    exact ⟨rfl, by positivity⟩
  · intro m enc hm hne henc
    unfold CountTokens resolveCodec
    rw [hm]
    simp [hne, henc]

/-- Witness for C5: with an empty registry the count is -1; a registry whose default P50k-base codec is available yields the length of the Encode output. -/
theorem C5_witness :
    CountTokens ⟨fun _ => none, fun _ => none⟩ "abc" [] = -1
    ∧ CountTokens ⟨fun _ => none, fun _ => some ⟨fun s => [s.length]⟩⟩ "abc" [] = 1
    ∧ CountTokens ⟨fun _ => some ⟨fun _ => [7, 8]⟩, fun _ => none⟩ "abc"
        [⟨"model", OptValue.str "gpt2"⟩] = 2 := by
  refine ⟨?_, ?_, ?_⟩
  · exact ((C5_countTokens ⟨fun _ => none, fun _ => none⟩ "abc" []).1).2
      (by simp [resolveCodec, GetString])
  · have h := ((C5_countTokens
      ⟨fun _ => none, fun _ => some ⟨fun s => [s.length]⟩⟩ "abc" []).2.1)
      ⟨fun s => [s.length]⟩ (by simp [resolveCodec, GetString])
    simpa using h.1
  · have h := ((C5_countTokens ⟨fun _ => some ⟨fun _ => [7, 8]⟩, fun _ => none⟩ "abc"
      [⟨"model", OptValue.str "gpt2"⟩]).2.2) "gpt2" ⟨fun _ => [7, 8]⟩
      (by simp [GetString, Opt.AsString]) (by decide) rfl
    simpa using h

/--
C6: Constructing a Platform-flavor client whose option list omits the
API-key option, or supplies one converting to the empty string, fails at
Init with a configuration error naming the API-key option; with a
non-empty API key, Init succeeds.
-/
theorem C6_platform_init_requires_api_key :
    ∀ opts : OptionList,
      ((∀ o ∈ opts, o.Key ≠ OptOpenAIApiKey) →
        PlatformOpenAIClient.Init opts = .error ⟨OptOpenAIApiKey⟩)
      ∧ (GetString opts OptOpenAIApiKey = .ok "" →
        PlatformOpenAIClient.Init opts = .error ⟨OptOpenAIApiKey⟩)
      ∧ (∀ s, GetString opts OptOpenAIApiKey = .ok s → s ≠ "" →
        ∃ c, PlatformOpenAIClient.Init opts = .ok c ∧ c.apiKey = s) := by
  intro opts
  refine ⟨?_, ?_, ?_⟩
  · intro h
    unfold PlatformOpenAIClient.Init
    rw [getString_no_match opts OptOpenAIApiKey h]
  · intro h
    unfold PlatformOpenAIClient.Init
    rw [h]
    simp
  · intro s hs hne
    unfold PlatformOpenAIClient.Init
    rw [hs]
    simp only [if_neg hne]
    exact ⟨_, rfl, rfl⟩

/-- Witness for C6: an empty option list and an empty API key fail naming the API-key option; a concrete non-empty key succeeds. -/
theorem C6_witness :
    PlatformOpenAIClient.Init [] = .error ⟨OptOpenAIApiKey⟩
    ∧ PlatformOpenAIClient.Init [⟨OptOpenAIApiKey, OptValue.str ""⟩] =
        .error ⟨OptOpenAIApiKey⟩
    ∧ ∃ c, PlatformOpenAIClient.Init [⟨OptOpenAIApiKey, OptValue.str "key1"⟩] =
        .ok c ∧ c.apiKey = "key1" := by
  refine ⟨?_, ?_, ?_⟩
  · exact (C6_platform_init_requires_api_key []).1 (by simp)
  · exact (C6_platform_init_requires_api_key
      [⟨OptOpenAIApiKey, OptValue.str ""⟩]).2.1 rfl
  · exact (C6_platform_init_requires_api_key
      [⟨OptOpenAIApiKey, OptValue.str "key1"⟩]).2.2 "key1" rfl (by decide)

/--
C7: The output envelope always carries the status code of the transport
response; a transport error is copied into the error field unchanged with
the body fields left zero-valued; the deserialization result (error and
body) is recorded only when no transport error occurred, so a transport
error is never overwritten.
-/
theorem C7_output_envelope :
    ∀ (r : GjrcResponse CompletionsBody) (re : GjrcResponse EmbeddingsBody),
      (buildCompletionsOutput r).StatusCode = r.statusCode
      ∧ (∀ e, r.error = some e →
          (buildCompletionsOutput r).Error = some e
          ∧ (buildCompletionsOutput r).toCompletionsBody = zeroCompletionsBody)
      ∧ (r.error = none →
          (buildCompletionsOutput r).Error = r.unmarshalErr
          ∧ (buildCompletionsOutput r).toCompletionsBody = r.unmarshalBody)
      ∧ (buildEmbeddingsOutput re).StatusCode = re.statusCode
      ∧ (∀ e, re.error = some e →
          (buildEmbeddingsOutput re).Error = some e
          ∧ (buildEmbeddingsOutput re).toEmbeddingsBody = zeroEmbeddingsBody)
      ∧ (re.error = none →
          (buildEmbeddingsOutput re).Error = re.unmarshalErr
          ∧ (buildEmbeddingsOutput re).toEmbeddingsBody = re.unmarshalBody) := by
  intro r re
  cases hr : r.error <;> cases hre : re.error <;>
    simp [buildCompletionsOutput, buildEmbeddingsOutput, hr, hre]

/-- Witness for C7: a failed transport response keeps its error and a zero body with the status code recorded; an error-free response records the unmarshalled body. -/
theorem C7_witness :
    (buildCompletionsOutput ⟨some "boom", 500, none, zeroCompletionsBody⟩).StatusCode = 500
    ∧ (buildCompletionsOutput ⟨some "boom", 500, none, zeroCompletionsBody⟩).Error =
        some "boom"
    ∧ (buildEmbeddingsOutput ⟨none, 200, none,
        { Object := "list", Model := "m", Data := [], Usage := none }⟩).toEmbeddingsBody =
        { Object := "list", Model := "m", Data := [], Usage := none } := by
  obtain ⟨h1, h2, -, -, -, h6⟩ := C7_output_envelope
    ⟨some "boom", 500, none, zeroCompletionsBody⟩
    ⟨none, 200, none, { Object := "list", Model := "m", Data := [], Usage := none }⟩
  exact ⟨h1, (h2 "boom" rfl).1, (h6 rfl).2⟩

/--
C8: After a successful Platform Init, the base URL is the standard endpoint
"https://api.openai.com/v1" when the base-URL option is absent; when a base
URL is supplied, the trailing slash is stripped before use (with the
standard endpoint as fallback when the stripped value is empty); and every
operation URL is the resolved base URL followed by the operation path.
-/
theorem C8_base_url :
    ∀ opts : OptionList,
      ((∀ o ∈ opts, o.Key ≠ OptOpenAIBaseUrl) →
        ∀ c, PlatformOpenAIClient.Init opts = .ok c →
          c.baseUrl = "https://api.openai.com/v1")
      ∧ (∀ s, GetString opts OptOpenAIBaseUrl = .ok s →
        ∀ c, PlatformOpenAIClient.Init opts = .ok c →
          c.baseUrl = if TrimSuffix s "/" = "" then "https://api.openai.com/v1"
            else TrimSuffix s "/")
      ∧ (∀ c : PlatformOpenAIClient,
          c.buildUrlCompletions = c.baseUrl ++ "/completions"
          ∧ c.buildUrlChatCompletions = c.baseUrl ++ "/chat/completions"
          ∧ c.buildUrlEmbeddings = c.baseUrl ++ "/embeddings") := by
  intro opts
  refine ⟨?_, ?_, fun c => ⟨rfl, rfl, rfl⟩⟩
  · intro h c hc
    unfold PlatformOpenAIClient.Init at hc
    cases hk : GetString opts OptOpenAIApiKey with
    | error e => rw [hk] at hc; exact absurd hc (by simp)
    | ok apiKey =>
      rw [hk] at hc
      dsimp only at hc
      by_cases hak : apiKey = ""
      · rw [if_pos hak] at hc; exact absurd hc (by simp)
      · rw [if_neg hak] at hc
        have hbase : getStringOrEmpty opts OptOpenAIBaseUrl = "" := by
          unfold getStringOrEmpty
          rw [getString_no_match opts OptOpenAIBaseUrl h]
        obtain rfl := (Except.ok.inj hc).symm
        have ht : TrimSuffix "" "/" = "" := rfl
        simp [hbase, ht]
  · intro s hs c hc
    unfold PlatformOpenAIClient.Init at hc
    cases hk : GetString opts OptOpenAIApiKey with
    | error e => rw [hk] at hc; exact absurd hc (by simp)
    | ok apiKey =>
      rw [hk] at hc
      dsimp only at hc
      by_cases hak : apiKey = ""
      · rw [if_pos hak] at hc; exact absurd hc (by simp)
      · rw [if_neg hak] at hc
        have hbase : getStringOrEmpty opts OptOpenAIBaseUrl = s := by
          unfold getStringOrEmpty
          rw [hs]
        obtain rfl := (Except.ok.inj hc).symm
        simp [hbase]

/-- Witness for C8: with no base-URL option the resolved base URL is the standard endpoint; a supplied base URL keeps its value minus the trailing slash; operation URLs append the operation paths. -/
theorem C8_witness :
    (∃ c, PlatformOpenAIClient.Init [⟨OptOpenAIApiKey, OptValue.str "key1"⟩] = .ok c
      ∧ c.baseUrl = "https://api.openai.com/v1")
    ∧ (∃ c, PlatformOpenAIClient.Init [⟨OptOpenAIApiKey, OptValue.str "key1"⟩,
        ⟨OptOpenAIBaseUrl, OptValue.str "http://localhost:5123/"⟩] = .ok c
      ∧ c.baseUrl = "http://localhost:5123")
    ∧ (⟨"key1", "", "https://api.openai.com/v1"⟩ :
        PlatformOpenAIClient).buildUrlCompletions = "https://api.openai.com/v1/completions" := by
  refine ⟨?_, ?_, ?_⟩
  · have h1 := (C8_base_url [⟨OptOpenAIApiKey, OptValue.str "key1"⟩]).1 (by decide)
      ⟨"key1", "", "https://api.openai.com/v1"⟩ rfl
    exact ⟨⟨"key1", "", "https://api.openai.com/v1"⟩, rfl, h1⟩
  · have h2 := (C8_base_url [⟨OptOpenAIApiKey, OptValue.str "key1"⟩,
      ⟨OptOpenAIBaseUrl, OptValue.str "http://localhost:5123/"⟩]).2.1
      "http://localhost:5123/" rfl ⟨"key1", "", "http://localhost:5123"⟩ rfl
    refine ⟨⟨"key1", "", "http://localhost:5123"⟩, rfl, ?_⟩
    rw [h2]
    rfl
  · have h3 := ((C8_base_url []).2.2
      ⟨"key1", "", "https://api.openai.com/v1"⟩).1
    rw [h3]
    rfl

/--
C9: Over exact arithmetic, the cosine similarity of a non-zero vector with
itself is exactly 1 (Dot(v,v) equals Length(v) squared); the dot product of
any vector with the equal-length zero vector is 0; the length of a zero
vector is 0; and for an all-zero vector the divisor Length(v)*Length(v) of
Cosine is 0, which is exactly the division-by-zero condition that yields
the host floating-point failure value (not-a-number).
-/
theorem C9_cosine_self :
    ∀ (v : Vector) (n : Nat),
      ((∃ e ∈ v, e ≠ 0) → v.Cosine v = some 1)
      ∧ Vector.Dot v (List.replicate v.length 0) = some 0
      ∧ Vector.Length (List.replicate n (0 : ℝ)) = 0
      ∧ ((∀ e ∈ v, e = 0) → v.Length * v.Length = 0) := by
  intro v n
  refine ⟨?_, ?_, ?_, ?_⟩
  · rintro ⟨e, he, hne⟩
    have hpos : 0 < (v.map fun e => e * e).sum := sumSq_pos v e he hne
    unfold Vector.Cosine Vector.Dot Vector.Length
    rw [dotLoop_self v 0, foldl_sq_eq v 0]
    simp only [zero_add, Option.map_some']
    rw [Real.mul_self_sqrt (le_of_lt hpos), div_self (ne_of_gt hpos)]
  · unfold Vector.Dot
    rw [dotLoop_zero v 0]
  · unfold Vector.Length
    rw [foldl_sq_eq]
    have hz : ((List.replicate n (0 : ℝ)).map fun e => e * e).sum = 0 := by
      apply List.sum_eq_zero
      intro x hx
      obtain ⟨f, hf, rfl⟩ := List.mem_map.1 hx
      rw [List.eq_of_mem_replicate hf, mul_zero]
    rw [hz, zero_add, Real.sqrt_zero]
  · intro h
    have hz : (v.map fun e => e * e).sum = 0 := by
      apply List.sum_eq_zero
      intro x hx
      obtain ⟨f, hf, rfl⟩ := List.mem_map.1 hx
      rw [h f hf, mul_zero]
    unfold Vector.Length
    rw [foldl_sq_eq, hz, zero_add, Real.sqrt_zero, mul_zero]

/-- Witness for C9: the one-element vector [1] has cosine similarity 1 with itself, zero dot product against the zero vector, and the zero vector of length 2 has length 0. -/
theorem C9_witness :
    Vector.Cosine [(1 : ℝ)] [(1 : ℝ)] = some 1
    ∧ Vector.Dot [(1 : ℝ)] (List.replicate 1 0) = some 0
    ∧ Vector.Length (List.replicate 2 (0 : ℝ)) = 0
    ∧ Vector.Length [(0 : ℝ)] * Vector.Length [(0 : ℝ)] = 0 := by
  obtain ⟨h1, h2, h3, -⟩ := C9_cosine_self [(1 : ℝ)] 2
  obtain ⟨-, -, -, h4⟩ := C9_cosine_self [(0 : ℝ)] 0
  exact ⟨h1 ⟨1, List.mem_singleton_self 1, one_ne_zero⟩, h2, h3,
    h4 fun e he => List.eq_of_mem_singleton he⟩

/--
C10: Dot(v, other) never hits the out-of-range failure when other is at
least as long as v, and then returns the sum of the elementwise products
over the indices of v only (extra trailing elements of other are ignored);
the out-of-range failure occurs exactly when other is strictly shorter
than v.
-/
theorem C10_dot_length :
    ∀ (v other : Vector),
      (v.length ≤ other.length →
        Vector.Dot v other = some ((List.zipWith (fun x y => x * y) v other).sum))
      ∧ (Vector.Dot v other = none ↔ other.length < v.length) := by
  intro v other
  constructor
  · intro h
    unfold Vector.Dot
    rw [dotLoop_total v other 0 h, zero_add]
  · unfold Vector.Dot
    exact dotLoop_none_iff v other 0

/-- Witness for C10: on [1,2] against the longer [3,4,5] the dot product totals 11 with the trailing element ignored, and against the shorter [3] it fails. -/
theorem C10_witness :
    Vector.Dot [(1 : ℝ), 2] [(3 : ℝ), 4, 5] = some 11
    ∧ Vector.Dot [(1 : ℝ), 2] [(3 : ℝ)] = none := by
  obtain ⟨h1, -⟩ := C10_dot_length [(1 : ℝ), 2] [(3 : ℝ), 4, 5]
  obtain ⟨-, h2⟩ := C10_dot_length [(1 : ℝ), 2] [(3 : ℝ)]
  constructor
  · rw [h1 (by simp)]
    norm_num
  · exact h2.2 (by simp)

end Oaiaux
